import Mathlib

/-!
Verification of the MPEG-audio frame parser (mpegaudio/mpegaudioframe.cpp)
and the abstract track base class (abstracttrack.cpp) of the tagparser
library, against its natural-language specification.

Machine integers are modelled as `Nat`; the C++ bit operations `&`, `>>`
become `&&&`, `>>>` on `Nat` (all values involved are 32- or 64-bit masks,
so no overflow arises).  The C++ `double` arithmetic in
`MpegAudioFrame::size` is modelled as exact rational arithmetic with the
final `static_cast<uint32>` as truncation (`Int.floor` followed by
`Int.toNat`); see the comment on `MpegAudioFrame.size`.

The class declaration `mpegaudioframe.h` is not part of the sources; the
inline members declared there (`isValid`, `bitrate`, `paddingSize`, the
Xing flag accessors and the `MpegChannelMode` enumeration) are modelled
from the specification and marked as such in their doc comments.
-/

namespace Media

/-- Channel mode enumeration used by `MpegAudioFrame::channelMode`.
Modelled from the spec: the enumeration itself is declared in a header
that is not among the sources; the constructor names are those used by
`mpegaudioframe.cpp`. -/
inductive MpegChannelMode where
| SingleChannel
| DualChannel
| JointStereo
| Stereo
| Unspecifed
deriving DecidableEq, Repr

/-- Exception thrown by `MpegAudioFrame::parseHeader` on an invalid frame
header (`exceptions.h`). -/
inductive InvalidDataException where
| mk
deriving DecidableEq, Repr

/-- The MPEG audio frame, `class MpegAudioFrame` from `mpegaudioframe.cpp`.
Only the members touched by that translation unit are modelled; all are
32- or 64-bit unsigned integers, modelled as `Nat`. -/
structure MpegAudioFrame where
  m_header : ℕ
  m_xingHeader : ℕ
  m_xingHeaderFlags : ℕ
  m_xingFramefield : ℕ
  m_xingBytesfield : ℕ
  m_xingQualityIndicator : ℕ
deriving DecidableEq, Repr

/-- `const uint32 MpegAudioFrame::m_sync = 0xFFE00000u;` (line 28). -/
def MpegAudioFrame.m_sync : ℕ := 0xFFE00000

/-- `const uint64 MpegAudioFrame::m_xingHeaderOffset = 0x24;` (line 11). -/
def MpegAudioFrame.m_xingHeaderOffset : ℕ := 0x24

/-- `const int MpegAudioFrame::m_bitrateTable[0x2][0x3][0xF]` (lines 18-26),
row for row as in the source. -/
def MpegAudioFrame.m_bitrateTable : List (List (List ℕ)) :=
  [[[0, 32, 64, 96, 128, 160, 192, 224, 256, 288, 320, 352, 384, 416, 448],
    [0, 32, 48, 56, 64, 80, 96, 112, 128, 160, 192, 224, 256, 320, 384],
    [0, 32, 40, 48, 56, 64, 80, 96, 112, 128, 160, 192, 224, 256, 320]],
   [[0, 32, 48, 56, 64, 80, 96, 112, 128, 144, 160, 176, 192, 224, 256],
    [0, 8, 16, 24, 32, 40, 48, 56, 64, 80, 96, 112, 128, 144, 160],
    [0, 8, 16, 24, 32, 40, 48, 56, 64, 80, 96, 112, 128, 144, 160]]]

/-- Modelled from the spec: `MpegAudioFrame::isValid` is declared in
`mpegaudioframe.h`, which is not among the sources.  Spec: "Sync word:
top 11 bits of a 32-bit header all set"; the mask `m_sync = 0xFFE00000`
is defined in the source (line 28). -/
def MpegAudioFrame.isValid (f : MpegAudioFrame) : Bool :=
  f.m_header &&& MpegAudioFrame.m_sync == MpegAudioFrame.m_sync

/-- `MpegAudioFrame::mpegVersion` (lines 63-75): 1.0, 2.0 or 2.5 from the
version bits `0x180000`, otherwise 0.0.  The `double` return value is
modelled as an exact rational. -/
def MpegAudioFrame.mpegVersion (f : MpegAudioFrame) : ℚ :=
  if f.m_header &&& 0x180000 = 0x180000 then 1
  else if f.m_header &&& 0x180000 = 0x100000 then 2
  else if f.m_header &&& 0x180000 = 0x0 then 5 / 2
  else 0

/-- `MpegAudioFrame::layer` (lines 80-92): 1, 2 or 3 from the layer bits
`0x60000`, otherwise 0. -/
def MpegAudioFrame.layer (f : MpegAudioFrame) : ℕ :=
  if f.m_header &&& 0x60000 = 0x60000 then 1
  else if f.m_header &&& 0x60000 = 0x40000 then 2
  else if f.m_header &&& 0x60000 = 0x20000 then 3
  else 0

/-- `MpegAudioFrame::sampelRate` (lines 97-134, spelling as in the source).
Nested `switch` on the sample-rate index bits `0xC00` and the version bits
`0x180000`; every fall-through path returns 0.  The inner `case 0x100000:`
at line 126 lacks the `u` suffix of its siblings; in C++ the label is
converted to the promoted type `uint32` of the condition, so it matches
exactly the headers with version bits `0x100000`, as modelled here. -/
def MpegAudioFrame.sampelRate (f : MpegAudioFrame) : ℕ :=
  if f.m_header &&& 0xC00 = 0xC00 then 0
  else if f.m_header &&& 0xC00 = 0x800 then
    (if f.m_header &&& 0x180000 = 0x180000 then 32000
     else if f.m_header &&& 0x180000 = 0x100000 then 16000
     else if f.m_header &&& 0x180000 = 0x0 then 8000
     else 0)
  else if f.m_header &&& 0xC00 = 0x400 then
    (if f.m_header &&& 0x180000 = 0x180000 then 48000
     else if f.m_header &&& 0x180000 = 0x100000 then 24000
     else if f.m_header &&& 0x180000 = 0x0 then 12000
     else 0)
  else if f.m_header &&& 0xC00 = 0x0 then
    (if f.m_header &&& 0x180000 = 0x180000 then 44100
     else if f.m_header &&& 0x180000 = 0x100000 then 22050
     else if f.m_header &&& 0x180000 = 0x0 then 11025
     else 0)
  else 0

/-- `MpegAudioFrame::channelMode` (lines 139-156): the channel-mode bits
`0xC0` are decoded only when `isValid()`; otherwise (and on the
unreachable `default`) `MpegChannelMode::Unspecifed` is returned. -/
def MpegAudioFrame.channelMode (f : MpegAudioFrame) : MpegChannelMode :=
  if f.isValid then
    (if f.m_header &&& 0xC0 = 0xC0 then MpegChannelMode.SingleChannel
     else if f.m_header &&& 0xC0 = 0x80 then MpegChannelMode.DualChannel
     else if f.m_header &&& 0xC0 = 0x40 then MpegChannelMode.JointStereo
     else if f.m_header &&& 0xC0 = 0x00 then MpegChannelMode.Stereo
     else MpegChannelMode.Unspecifed)
  else MpegChannelMode.Unspecifed

/-- `MpegAudioFrame::sampleCount` (lines 161-180): `switch` on the layer
bits, with an inner `switch` on the version bits for layer III; for layer
III with the reserved version bits `0x80000` control falls through to
`return 0`. -/
def MpegAudioFrame.sampleCount (f : MpegAudioFrame) : ℕ :=
  if f.m_header &&& 0x60000 = 0x60000 then 384
  else if f.m_header &&& 0x60000 = 0x40000 then 1152
  else if f.m_header &&& 0x60000 = 0x20000 then
    (if f.m_header &&& 0x180000 = 0x180000 then 1152
     else if f.m_header &&& 0x180000 = 0x100000 ∨ f.m_header &&& 0x180000 = 0x0 then 576
     else 0)
  else 0

/-- Modelled from the spec: `MpegAudioFrame::bitrate` is declared in
`mpegaudioframe.h`, which is not among the sources.  Spec:
"Bits encode ... bitrate index"; "Bitrate/sample-rate lookup tables are
fixed by the MPEG spec".  The bitrate index bits `0xF000 >> 12` select a
column of `m_bitrateTable` (defined in the source, lines 18-26); the first
dimension distinguishes MPEG-1 from MPEG-2/2.5 and the second the layer.
Index 15 (binary 1111) is past the 15-entry rows; it is modelled by the
lookup default 0. -/
def MpegAudioFrame.bitrate (f : MpegAudioFrame) : ℕ :=
  if 0 < f.mpegVersion ∧ 0 < f.layer then
    ((MpegAudioFrame.m_bitrateTable.getD (if f.mpegVersion = 1 then 0 else 1) []).getD
      (f.layer - 1) []).getD ((f.m_header &&& 0xF000) >>> 12) 0
  else 0

/-- Modelled from the spec: `MpegAudioFrame::paddingSize` is declared in
`mpegaudioframe.h`, which is not among the sources.  Spec frame-size
formula: "for layer I, `(12·bitrate/sample_rate + padding)·4`; for layers
II/III, `(144·bitrate/sample_rate + padding)`" — the padding bit `0x200`
contributes one slot, which is 4 bytes in layer I and 1 byte in layers
II/III. -/
def MpegAudioFrame.paddingSize (f : MpegAudioFrame) : ℕ :=
  if f.m_header &&& 0x60000 = 0x60000 then 4 * ((f.m_header &&& 0x200) >>> 9)
  else (f.m_header &&& 0x200) >>> 9

/-- `MpegAudioFrame::size` (lines 185-196).  The source computes, in
`double` arithmetic, `((bitrate() * 1024.0 / 8.0) / sampelRate()) *
sampleCount() + paddingSize()` and truncates with
`static_cast<uint32>`; the expression is identical in the layer-I and the
layer-II/III branch.  The `double` arithmetic is modelled as exact
rational arithmetic and the cast as `Int.floor`/`Int.toNat`: for every
bitrate-table entry and sample rate the exact quotient is never an
integer and is at distance at least `1/48000` from one, while the IEEE
rounding error of the two inexact operations is below `2^-30`, so the
truncated values agree.  (For a zero sample rate the source divides by
zero; the rational model yields 0 there.) -/
def MpegAudioFrame.size (f : MpegAudioFrame) : ℕ :=
  if f.m_header &&& 0x60000 = 0x60000 then
    (Int.floor ((f.bitrate : ℚ) * 1024 / 8 / (f.sampelRate : ℚ) * (f.sampleCount : ℚ)
      + (f.paddingSize : ℚ))).toNat
  else if f.m_header &&& 0x60000 = 0x40000 ∨ f.m_header &&& 0x60000 = 0x20000 then
    (Int.floor ((f.bitrate : ℚ) * 1024 / 8 / (f.sampelRate : ℚ) * (f.sampleCount : ℚ)
      + (f.paddingSize : ℚ))).toNat
  else 0

/-- The frame-size formula exactly as the specification states it (for
comparison with `MpegAudioFrame.size`): "for layer I,
`(12·bitrate/sample_rate + padding)·4`; for layers II/III,
`(144·bitrate/sample_rate + padding)`", with the decoded bitrate (kbit/s)
converted to bit/s and integer division. -/
def specFrameSize (f : MpegAudioFrame) : ℕ :=
  if f.m_header &&& 0x60000 = 0x60000 then
    (12 * (f.bitrate * 1000) / f.sampelRate + ((f.m_header &&& 0x200) >>> 9)) * 4
  else if f.m_header &&& 0x60000 = 0x40000 ∨ f.m_header &&& 0x60000 = 0x20000 then
    144 * (f.bitrate * 1000) / f.sampelRate + ((f.m_header &&& 0x200) >>> 9)
  else 0

/-- State of the `IoUtilities::BinaryReader` and its underlying seekable
`std::istream`.  `bytes` gives the byte at each absolute stream offset
(each value is taken modulo 256), `pos` is the read position, and `reads`
records, in order, the position and length of every read performed — the
reads are the observable interaction of `parseHeader` with the stream. -/
structure ReaderState where
  bytes : ℕ → ℕ
  pos : ℕ
  reads : List (ℕ × ℕ)

/-- Big-endian integer value of `n` bytes starting at offset `pos`. -/
def readBE (bytes : ℕ → ℕ) (pos n : ℕ) : ℕ :=
  (List.range n).foldl (fun acc i => acc * 256 + bytes (pos + i) % 256) 0

/-- `BinaryReader::readUInt32BE`: reads 4 big-endian bytes and advances. -/
def BinaryReader.readUInt32BE (st : ReaderState) : ℕ × ReaderState :=
  (readBE st.bytes st.pos 4,
   { st with pos := st.pos + 4, reads := st.reads ++ [(st.pos, 4)] })

/-- `BinaryReader::readUInt64BE`: reads 8 big-endian bytes and advances. -/
def BinaryReader.readUInt64BE (st : ReaderState) : ℕ × ReaderState :=
  (readBE st.bytes st.pos 8,
   { st with pos := st.pos + 8, reads := st.reads ++ [(st.pos, 8)] })

/-- `reader.stream()->seekg(off, ios_base::cur)`: advances the position by
`off` bytes without reading. -/
def seekgCur (st : ReaderState) (off : ℕ) : ReaderState :=
  { st with pos := st.pos + off }

/-- Modelled from the spec: `MpegAudioFrame::isXingHeaderAvailable` is
declared in `mpegaudioframe.h`, which is not among the sources.  Spec:
"The Xing/Info/VBRI side-data sits at a fixed byte offset after the sync
... when present" — the 8 bytes read at the side-data offset hold the
ASCII magic `Xing` (`0x58696E67`) or `Info` (`0x496E666F`) in their upper
half and the flag word in their lower half. -/
def MpegAudioFrame.isXingHeaderAvailable (f : MpegAudioFrame) : Bool :=
  f.m_xingHeader >>> 32 == 0x58696E67 || f.m_xingHeader >>> 32 == 0x496E666F

/-- Modelled from the spec: "the parser reads optional frame count, byte
count, TOC (100 bytes), quality indicator — each guarded by a flag word".
The Xing flag word assigns bit 0x1 to the frame-count field. -/
def MpegAudioFrame.isXingFramefieldPresent (f : MpegAudioFrame) : Bool :=
  f.m_xingHeaderFlags &&& 0x1 != 0

/-- Modelled from the spec (see `isXingFramefieldPresent`): bit 0x2 of the
Xing flag word guards the byte-count field. -/
def MpegAudioFrame.isXingBytesfieldPresent (f : MpegAudioFrame) : Bool :=
  f.m_xingHeaderFlags &&& 0x2 != 0

/-- Modelled from the spec (see `isXingFramefieldPresent`): bit 0x4 of the
Xing flag word guards the TOC field. -/
def MpegAudioFrame.isXingTocFieldPresent (f : MpegAudioFrame) : Bool :=
  f.m_xingHeaderFlags &&& 0x4 != 0

/-- Modelled from the spec (see `isXingFramefieldPresent`): bit 0x8 of the
Xing flag word guards the quality indicator. -/
def MpegAudioFrame.isXingQualityIndicatorFieldPresent (f : MpegAudioFrame) : Bool :=
  f.m_xingHeaderFlags &&& 0x8 != 0

/-- The body of the `if(isXingHeaderAvailable())` block of
`MpegAudioFrame::parseHeader` (lines 42-53): conditionally reads the frame
count and byte count, seeks 64 bytes past the TOC, and reads the quality
indicator.  The four guards all test `m_xingHeaderFlags`, which none of
the three field assignments alters, so evaluating every guard on the
incoming frame is faithful to the source's sequential conditionals. -/
def MpegAudioFrame.readXingFields (f : MpegAudioFrame) (st : ReaderState) :
    MpegAudioFrame × ReaderState :=
  let p1 := if f.isXingFramefieldPresent then (BinaryReader.readUInt32BE st).2 else st
  let f1 := if f.isXingFramefieldPresent then
      { f with m_xingFramefield := (BinaryReader.readUInt32BE st).1 } else f
  let p2 := if f.isXingBytesfieldPresent then (BinaryReader.readUInt32BE p1).2 else p1
  let f2 := if f.isXingBytesfieldPresent then
      { f1 with m_xingBytesfield := (BinaryReader.readUInt32BE p1).1 } else f1
  let p3 := if f.isXingTocFieldPresent then seekgCur p2 64 else p2
  let p4 := if f.isXingQualityIndicatorFieldPresent then
      (BinaryReader.readUInt32BE p3).2 else p3
  let f4 := if f.isXingQualityIndicatorFieldPresent then
      { f2 with m_xingQualityIndicator := (BinaryReader.readUInt32BE p3).1 } else f2
  (f4, p4)

/-- Tail of `MpegAudioFrame::parseHeader` after the header and Xing words
have been read into `f0`: the optional Xing fields are consumed when the
Xing header is available, then `InvalidDataException` is thrown unless
`isValid()` (lines 41-57).  The reader state is returned alongside the
outcome because the C++ stream outlives the exception. -/
def MpegAudioFrame.parseHeaderAfterSync (f0 : MpegAudioFrame) (st : ReaderState) :
    Except InvalidDataException MpegAudioFrame × ReaderState :=
  let fs := if f0.isXingHeaderAvailable then MpegAudioFrame.readXingFields f0 st
            else (f0, st)
  if fs.1.isValid then (Except.ok fs.1, fs.2)
  else (Except.error InvalidDataException.mk, fs.2)

/-- `MpegAudioFrame::parseHeader` (lines 35-58): reads the 4-byte header,
seeks `m_xingHeaderOffset - 4` bytes further, reads the 8-byte Xing word
(magic plus flag word, the flag word being its low 32 bits), consumes the
optional Xing fields, and throws `InvalidDataException` unless the header
is valid. -/
def MpegAudioFrame.parseHeader (st : ReaderState) :
    Except InvalidDataException MpegAudioFrame × ReaderState :=
  let h := (BinaryReader.readUInt32BE st).1
  let st1 := (BinaryReader.readUInt32BE st).2
  let st2 := seekgCur st1 (MpegAudioFrame.m_xingHeaderOffset - 4)
  let xh := (BinaryReader.readUInt64BE st2).1
  let st3 := (BinaryReader.readUInt64BE st2).2
  MpegAudioFrame.parseHeaderAfterSync ⟨h, xh, xh &&& 0xFFFFFFFF, 0, 0, 0⟩ st3

/-- Byte stream built from a list; offsets past the end read 0. -/
def bytesOfList (l : List ℕ) : ℕ → ℕ := fun i => l.getD i 0

/-- An MPEG-1 layer III header with 32 kbit/s, 44100 Hz, no padding:
sync bits `0xFFE00000`, version bits `0x180000`, layer bits `0x20000`,
bitrate index 1 (`0x1000`), sample-rate index 0. -/
def frameC1 : MpegAudioFrame := ⟨0xFFFA1000, 0, 0, 0, 0, 0⟩

/-- Stream holding the valid header `0xFFFA1000`, a Xing magic at offset
`0x24` and a flag word `0x4` (only the TOC flag set). -/
def streamC2 : ReaderState :=
  ⟨bytesOfList ([0xFF, 0xFA, 0x10, 0x00] ++ List.replicate 32 0 ++
    [0x58, 0x69, 0x6E, 0x67, 0x00, 0x00, 0x00, 0x04]), 0, []⟩

/-- Stream holding the valid header `0xFFFA1000`: MPEG version 1
(version bits `0x180000`), channel mode Stereo (mode bits `0x00`). -/
def streamC3a : ReaderState := ⟨bytesOfList [0xFF, 0xFA, 0x10, 0x00], 0, []⟩

/-- Stream holding the valid header `0xFFF200C0`: MPEG version 2
(version bits `0x100000`), channel mode SingleChannel (mode bits `0xC0`). -/
def streamC3b : ReaderState := ⟨bytesOfList [0xFF, 0xF2, 0x00, 0xC0], 0, []⟩

/-- Stream holding the valid header `0xFFFB9044`, used as a witness
input. -/
def streamC3w : ReaderState := ⟨bytesOfList [0xFF, 0xFB, 0x90, 0x44], 0, []⟩

/-- Stream holding the header `0xFFFAF000`: all sync bits set and bitrate
index 1111 (bits `0xF000`). -/
def streamC7 : ReaderState := ⟨bytesOfList [0xFF, 0xFA, 0xF0, 0x00], 0, []⟩

/-- The MPEG-1 layer I row of `m_bitrateTable`. -/
def mpegV1LayerIBitrates : List ℕ :=
  (MpegAudioFrame.m_bitrateTable.getD 0 []).getD 0 []

/-- Exception kinds that `AbstractTrack::internalParseHeader` may raise:
a `Media::Failure`-derived parsing error, or `std::ios_base::failure` on
an IO error (`abstracttrack.cpp` doc comment, lines 149-151). -/
inductive TrackError where
| mediaFailure
| streamFailure
deriving DecidableEq, Repr

/-- The members of `class AbstractTrack` (abstracttrack.cpp) relevant to
`parseHeader`: the construction-time start offset, the header-valid flag
(initialised `false` by the constructor, line 34), and the associated
input stream, modelled by its read position. -/
structure AbstractTrack where
  m_startOffset : ℕ
  m_headerValid : Bool
  m_istreamPos : ℕ
deriving DecidableEq, Repr

/-- `AbstractTrack::parseHeader` (lines 153-164): clears `m_headerValid`,
seeks the input stream to `m_startOffset` (`ios_base::beg`), then runs the
subclass's `internalParseHeader` and sets `m_headerValid` on success; any
exception propagates (`catch(Failure &) { throw; }` rethrows) and leaves
the flag cleared.  `internalParseHeader` is virtual and its overrides are
not among the sources; it is modelled as an arbitrary function `internal`
of the stream position at which it starts, returning the exception raised
(if any) and the stream position it leaves behind. -/
def AbstractTrack.parseHeader (internal : ℕ → Option TrackError × ℕ)
    (t : AbstractTrack) : Option TrackError × AbstractTrack :=
  let r := internal t.m_startOffset
  match r.1 with
  | none => (none, { t with m_headerValid := true, m_istreamPos := r.2 })
  | some e => (some e, { t with m_headerValid := false, m_istreamPos := r.2 })

end Media

namespace Media

/-- C4: for every header whose version bits `0x180000` equal `0x100000`
(MPEG-2) and whose sample-rate index bits `0xC00` equal 0,
`MpegAudioFrame::sampelRate` returns 22050; the missing `u` suffix on the
`case 0x100000:` label does not change this (the label is converted to the
unsigned type of the `switch` condition). -/
theorem sampelRate_mpeg2_index0 (f : MpegAudioFrame)
    (hv : f.m_header &&& 0x180000 = 0x100000) (hs : f.m_header &&& 0xC00 = 0) :
    f.sampelRate = 22050 := by
  simp [MpegAudioFrame.sampelRate, hv, hs]

/-- Witness for `sampelRate_mpeg2_index0` at the concrete header
`0x100000`. -/
theorem sampelRate_mpeg2_index0_witness :
    (0x100000 : ℕ) &&& 0x180000 = 0x100000 ∧ (0x100000 : ℕ) &&& 0xC00 = 0 ∧
      MpegAudioFrame.sampelRate ⟨0x100000, 0, 0, 0, 0, 0⟩ = 22050 :=
  ⟨by decide, by decide,
    sampelRate_mpeg2_index0 ⟨0x100000, 0, 0, 0, 0, 0⟩ (by decide) (by decide)⟩

/-- C5: `MpegAudioFrame::sampleCount` returns 384 for layer I, 1152 for
layer II (any version) and for layer III with MPEG version 1, and 576 for
layer III with MPEG version 2 or 2.5. -/
theorem sampleCount_by_layer_and_version (f : MpegAudioFrame) :
    (f.m_header &&& 0x60000 = 0x60000 → f.sampleCount = 384) ∧
    (f.m_header &&& 0x60000 = 0x40000 → f.sampleCount = 1152) ∧
    (f.m_header &&& 0x60000 = 0x20000 ∧ f.m_header &&& 0x180000 = 0x180000 →
      f.sampleCount = 1152) ∧
    (f.m_header &&& 0x60000 = 0x20000 ∧
        (f.m_header &&& 0x180000 = 0x100000 ∨ f.m_header &&& 0x180000 = 0x0) →
      f.sampleCount = 576) := by
  refine ⟨fun h => ?_, fun h => ?_, fun h => ?_, fun h => ?_⟩
  · simp [MpegAudioFrame.sampleCount, h]
  · simp [MpegAudioFrame.sampleCount, h]
  · simp [MpegAudioFrame.sampleCount, h.1, h.2]
  · rcases h.2 with h2 | h2 <;> simp [MpegAudioFrame.sampleCount, h.1, h2]

/-- Witness for `sampleCount_by_layer_and_version` at concrete headers for
layer I, layer II, layer III version 1 and layer III version 2. -/
theorem sampleCount_by_layer_and_version_witness :
    MpegAudioFrame.sampleCount ⟨0x60000, 0, 0, 0, 0, 0⟩ = 384 ∧
    MpegAudioFrame.sampleCount ⟨0x40000, 0, 0, 0, 0, 0⟩ = 1152 ∧
    MpegAudioFrame.sampleCount ⟨0x1A0000, 0, 0, 0, 0, 0⟩ = 1152 ∧
    MpegAudioFrame.sampleCount ⟨0x120000, 0, 0, 0, 0, 0⟩ = 576 :=
  ⟨(sampleCount_by_layer_and_version _).1 (by decide),
   (sampleCount_by_layer_and_version _).2.1 (by decide),
   (sampleCount_by_layer_and_version _).2.2.1 ⟨by decide, by decide⟩,
   (sampleCount_by_layer_and_version _).2.2.2 ⟨by decide, Or.inl (by decide)⟩⟩

/-- C10: for every frame whose header is not valid,
`MpegAudioFrame::channelMode` returns `MpegChannelMode::Unspecifed`,
whatever the channel-mode bits `0xC0` hold. -/
theorem channelMode_invalid_unspecifed (f : MpegAudioFrame)
    (h : f.isValid = false) : f.channelMode = MpegChannelMode.Unspecifed := by
  simp [MpegAudioFrame.channelMode, h]

/-- Witness for `channelMode_invalid_unspecifed` at the all-zero header
(sync bits clear, channel-mode bits 0). -/
theorem channelMode_invalid_unspecifed_witness :
    MpegAudioFrame.isValid ⟨0xC0, 0, 0, 0, 0, 0⟩ = false ∧
      MpegAudioFrame.channelMode ⟨0xC0, 0, 0, 0, 0, 0⟩ = MpegChannelMode.Unspecifed :=
  ⟨by decide, channelMode_invalid_unspecifed ⟨0xC0, 0, 0, 0, 0, 0⟩ (by decide)⟩

/-- C1: at the accepted header `frameC1` (MPEG-1 layer III, 32 kbit/s,
44100 Hz, no padding) `MpegAudioFrame::size` returns 106 bytes, because
it converts the decoded bitrate with 1024 bits per kbit; the
specification's formula `144·bitrate/sample_rate + padding` (bitrate in
bit/s) yields 104 bytes. -/
theorem size_diverges_from_spec_formula :
    frameC1.isValid = true ∧ frameC1.size = 106 ∧ specFrameSize frameC1 = 104 := by
  refine ⟨by decide, ?_, by decide⟩
  have h1 : frameC1.bitrate = 32 := by decide
  have h2 : frameC1.sampelRate = 44100 := by decide
  have h3 : frameC1.sampleCount = 1152 := by decide
  have h4 : frameC1.paddingSize = 0 := by decide
  have h5 : frameC1.m_header &&& 0x60000 = 0x20000 := by decide
  rw [MpegAudioFrame.size, if_neg (by rw [h5]; decide), if_pos (Or.inr h5),
    h1, h2, h3, h4]
  norm_num
  decide

theorem isValid_of_header_eq {f g : MpegAudioFrame} (h : f.m_header = g.m_header) :
    f.isValid = g.isValid := by
  simp [MpegAudioFrame.isValid, h]

theorem readXingFields_header (f : MpegAudioFrame) (st : ReaderState) :
    ((MpegAudioFrame.readXingFields f st).1).m_header = f.m_header := by
  simp only [MpegAudioFrame.readXingFields]
  split_ifs <;> rfl

theorem readXingFields_reads_take2 (f : MpegAudioFrame) (st : ReaderState)
    (a b : ℕ × ℕ) (h : st.reads = [a, b]) :
    ((MpegAudioFrame.readXingFields f st).2.reads).take 2 = [a, b] := by
  simp only [MpegAudioFrame.readXingFields, BinaryReader.readUInt32BE, seekgCur]
  split_ifs <;> simp [h]

theorem parseHeaderAfterSync_ok_iff (f0 : MpegAudioFrame) (st : ReaderState) :
    (∃ fr, (MpegAudioFrame.parseHeaderAfterSync f0 st).1 = Except.ok fr) ↔
      f0.isValid = true := by
  have hfix : (MpegAudioFrame.readXingFields f0 st).1.isValid = f0.isValid :=
    isValid_of_header_eq (readXingFields_header f0 st)
  by_cases hb : f0.isXingHeaderAvailable <;> by_cases hv : f0.isValid <;>
    simp [MpegAudioFrame.parseHeaderAfterSync, hb, hfix, hv]

theorem parseHeaderAfterSync_error_iff (f0 : MpegAudioFrame) (st : ReaderState) :
    ((MpegAudioFrame.parseHeaderAfterSync f0 st).1 =
        Except.error InvalidDataException.mk) ↔ ¬ f0.isValid = true := by
  have hfix : (MpegAudioFrame.readXingFields f0 st).1.isValid = f0.isValid :=
    isValid_of_header_eq (readXingFields_header f0 st)
  by_cases hb : f0.isXingHeaderAvailable <;> by_cases hv : f0.isValid <;>
    simp [MpegAudioFrame.parseHeaderAfterSync, hb, hfix, hv]

theorem parseHeaderAfterSync_reads_take2 (f0 : MpegAudioFrame) (st : ReaderState)
    (a b : ℕ × ℕ) (h : st.reads = [a, b]) :
    ((MpegAudioFrame.parseHeaderAfterSync f0 st).2.reads).take 2 = [a, b] := by
  have hfix : (MpegAudioFrame.readXingFields f0 st).1.isValid = f0.isValid :=
    isValid_of_header_eq (readXingFields_header f0 st)
  by_cases hb : f0.isXingHeaderAvailable <;> by_cases hv : f0.isValid <;>
    simp [MpegAudioFrame.parseHeaderAfterSync, hb, hfix, hv, h,
      readXingFields_reads_take2 f0 st a b h]

theorem parseHeader_eq (st : ReaderState) :
    MpegAudioFrame.parseHeader st =
      MpegAudioFrame.parseHeaderAfterSync
        ⟨readBE st.bytes st.pos 4, readBE st.bytes (st.pos + 0x24) 8,
          readBE st.bytes (st.pos + 0x24) 8 &&& 0xFFFFFFFF, 0, 0, 0⟩
        ⟨st.bytes, st.pos + 0x2C,
          st.reads ++ [(st.pos, 4), (st.pos + 0x24, 8)]⟩ := by
  simp [MpegAudioFrame.parseHeader, BinaryReader.readUInt32BE,
    BinaryReader.readUInt64BE, seekgCur, MpegAudioFrame.m_xingHeaderOffset,
    Nat.add_assoc]

theorem parseHeader_fst_ok_iff (st : ReaderState) :
    (∃ fr, (MpegAudioFrame.parseHeader st).1 = Except.ok fr) ↔
      readBE st.bytes st.pos 4 &&& 0xFFE00000 = 0xFFE00000 := by
  rw [parseHeader_eq st, parseHeaderAfterSync_ok_iff]
  simp [MpegAudioFrame.isValid, MpegAudioFrame.m_sync]

theorem parseHeader_fst_error_iff (st : ReaderState) :
    ((MpegAudioFrame.parseHeader st).1 = Except.error InvalidDataException.mk) ↔
      ¬ readBE st.bytes st.pos 4 &&& 0xFFE00000 = 0xFFE00000 := by
  rw [parseHeader_eq st, parseHeaderAfterSync_error_iff]
  simp [MpegAudioFrame.isValid, MpegAudioFrame.m_sync]

/-- C6: `MpegAudioFrame::parseHeader` throws `InvalidDataException`
exactly when the 32-bit header it reads at the current stream position
does not have all of its top 11 bits (`0xFFE00000`) set, and returns
normally (with the parsed frame) exactly when it does. -/
theorem parseHeader_invalidData_iff_bad_sync (st : ReaderState) :
    ((MpegAudioFrame.parseHeader st).1 = Except.error InvalidDataException.mk ↔
      ¬ readBE st.bytes st.pos 4 &&& 0xFFE00000 = 0xFFE00000) ∧
    ((∃ fr, (MpegAudioFrame.parseHeader st).1 = Except.ok fr) ↔
      readBE st.bytes st.pos 4 &&& 0xFFE00000 = 0xFFE00000) :=
  ⟨parseHeader_fst_error_iff st, parseHeader_fst_ok_iff st⟩

/-- C2: on a stream whose valid frame carries a Xing header with only the
TOC flag (bit `0x4`) set, `parseHeader` leaves the stream 64 bytes past
the flag word (absolute offset `0x2C + 64 = 108`), not the 100 bytes of
TOC data the claim (and the Xing format, TOC size `0x64 = 100`) calls
for; the frame-count, byte-count and quality fields are not read, so the
final position is exactly the flag-guarded TOC skip. -/
theorem parseHeader_toc_skip_is_64_not_100 :
    (MpegAudioFrame.parseHeader streamC2).1 =
        Except.ok ⟨0xFFFA1000, 0x58696E6700000004, 0x4, 0, 0, 0⟩ ∧
    MpegAudioFrame.isXingTocFieldPresent ⟨0xFFFA1000, 0x58696E6700000004, 0x4, 0, 0, 0⟩ = true ∧
    MpegAudioFrame.isXingFramefieldPresent ⟨0xFFFA1000, 0x58696E6700000004, 0x4, 0, 0, 0⟩ = false ∧
    MpegAudioFrame.isXingBytesfieldPresent ⟨0xFFFA1000, 0x58696E6700000004, 0x4, 0, 0, 0⟩ = false ∧
    MpegAudioFrame.isXingQualityIndicatorFieldPresent ⟨0xFFFA1000, 0x58696E6700000004, 0x4, 0, 0, 0⟩ = false ∧
    (MpegAudioFrame.parseHeader streamC2).2.pos = 0x2C + 64 ∧
    (0x2C : ℕ) + 64 ≠ 0x2C + 100 := by
  exact ⟨rfl, by decide, by decide, by decide, by decide, rfl, by decide⟩

/-- C3 counterexample: the headers of `streamC3a` (MPEG version 1,
Stereo) and `streamC3b` (MPEG version 2, SingleChannel) differ in both
the version bits and the channel-mode bits, yet `parseHeader` performs
its 8-byte Xing side-data read at the same offset `0x24` from the frame
start for both — the offset is not a function that separates
version/channel-mode combinations. -/
theorem xing_offset_equal_across_version_and_mode :
    (MpegAudioFrame.parseHeader streamC3a).2.reads.getD 1 (0, 0) = (0x24, 8) ∧
    (MpegAudioFrame.parseHeader streamC3b).2.reads.getD 1 (0, 0) = (0x24, 8) ∧
    readBE streamC3a.bytes 0 4 &&& 0x180000 ≠ readBE streamC3b.bytes 0 4 &&& 0x180000 ∧
    readBE streamC3a.bytes 0 4 &&& 0xC0 ≠ readBE streamC3b.bytes 0 4 &&& 0xC0 :=
  ⟨rfl, rfl, by decide, by decide⟩

/-- C3 amended: for every stream, `parseHeader` reads the 4-byte frame
header at the frame start and the 8-byte Xing side-data at the single
constant offset `m_xingHeaderOffset = 0x24` past the frame start,
independently of the MPEG version and channel mode in the header. -/
theorem parseHeader_xing_read_at_constant_offset (st : ReaderState)
    (h : st.reads = []) :
    ((MpegAudioFrame.parseHeader st).2.reads).take 2 =
      [(st.pos, 4), (st.pos + MpegAudioFrame.m_xingHeaderOffset, 8)] := by
  rw [parseHeader_eq st]
  have h2 : (⟨st.bytes, st.pos + 0x2C,
      st.reads ++ [(st.pos, 4), (st.pos + 0x24, 8)]⟩ : ReaderState).reads =
      [(st.pos, 4), (st.pos + 0x24, 8)] := by simp [h]
  simpa [MpegAudioFrame.m_xingHeaderOffset] using
    parseHeaderAfterSync_reads_take2 _ _ _ _ h2

/-- Witness for `parseHeader_xing_read_at_constant_offset` on the
concrete stream `streamC3w`. -/
theorem parseHeader_xing_read_at_constant_offset_witness :
    streamC3w.reads = [] ∧
      ((MpegAudioFrame.parseHeader streamC3w).2.reads).take 2 =
        [(streamC3w.pos, 4), (streamC3w.pos + MpegAudioFrame.m_xingHeaderOffset, 8)] :=
  ⟨rfl, parseHeader_xing_read_at_constant_offset streamC3w rfl⟩

/-- C7 counterexample: the header `0xFFFAF000` of `streamC7` has bitrate
index 1111 (bits `0xF000` all set), yet `parseHeader` accepts it — the
validity check examines only the sync bits, so such frames are not
rejected as invalid. -/
theorem bitrate_index_1111_not_rejected :
    readBE streamC7.bytes streamC7.pos 4 &&& 0xF000 = 0xF000 ∧
      (MpegAudioFrame.parseHeader streamC7).1 =
        Except.ok ⟨0xFFFAF000, 0, 0, 0, 0, 0⟩ :=
  ⟨by decide, rfl⟩

/-- C7 amended: every nonzero entry of the MPEG-1 layer I row of
`m_bitrateTable` lies in `[32, 448]` kbit/s; however, a header whose
bitrate index is 1111 is not rejected — `parseHeader` accepts every
header whose sync bits are all set, whatever its bitrate index. -/
theorem bitrateTable_bounds_and_sync_only_rejection :
    (∀ b ∈ mpegV1LayerIBitrates, b ≠ 0 → 32 ≤ b ∧ b ≤ 448) ∧
    (∀ st : ReaderState, readBE st.bytes st.pos 4 &&& 0xFFE00000 = 0xFFE00000 →
      ∃ fr, (MpegAudioFrame.parseHeader st).1 = Except.ok fr) :=
  ⟨by decide, fun st h => (parseHeader_fst_ok_iff st).mpr h⟩

/-- Witness for `bitrateTable_bounds_and_sync_only_rejection`: the table
entry 64 and the concrete stream `streamC7`, whose header has all sync
bits set. -/
theorem bitrateTable_bounds_and_sync_only_rejection_witness :
    (32 ≤ (64 : ℕ) ∧ (64 : ℕ) ≤ 448) ∧
      ∃ fr, (MpegAudioFrame.parseHeader streamC7).1 = Except.ok fr :=
  ⟨bitrateTable_bounds_and_sync_only_rejection.1 64 (by decide) (by decide),
   bitrateTable_bounds_and_sync_only_rejection.2 streamC7 (by decide)⟩

/-- C8: `AbstractTrack::parseHeader` positions the stream at the track's
`m_startOffset` before delegating to `internalParseHeader`: its outcome
does not depend on the stream position prior to the call, and it is
unchanged when `internalParseHeader` is replaced by any function that
agrees with it at the start offset (so the delegate is only ever invoked
there). -/
theorem abstractTrack_parseHeader_seeks_to_startOffset
    (f g : ℕ → Option TrackError × ℕ) (t : AbstractTrack) (p : ℕ) :
    AbstractTrack.parseHeader f { t with m_istreamPos := p } =
        AbstractTrack.parseHeader f t ∧
    (f t.m_startOffset = g t.m_startOffset →
      AbstractTrack.parseHeader f t = AbstractTrack.parseHeader g t) := by
  constructor
  · cases h : (f t.m_startOffset).1 <;>
      simp [AbstractTrack.parseHeader, h]
  · intro hfg
    simp [AbstractTrack.parseHeader, hfg]

/-- Witness for `abstractTrack_parseHeader_seeks_to_startOffset` with the
identity-like delegate at a concrete track. -/
theorem abstractTrack_parseHeader_seeks_to_startOffset_witness :
    (AbstractTrack.parseHeader (fun q => (none, q + 16)) { m_startOffset := 5, m_headerValid := false, m_istreamPos := 7 } =
        AbstractTrack.parseHeader (fun q => (none, q + 16)) { m_startOffset := 5, m_headerValid := false, m_istreamPos := 0 }) ∧
    (AbstractTrack.parseHeader (fun q => (none, q + 16)) { m_startOffset := 5, m_headerValid := false, m_istreamPos := 0 } =
        AbstractTrack.parseHeader (fun q => (none, q + 16)) { m_startOffset := 5, m_headerValid := false, m_istreamPos := 0 }) :=
  ⟨(abstractTrack_parseHeader_seeks_to_startOffset (fun q => (none, q + 16))
      (fun q => (none, q + 16)) ⟨5, false, 0⟩ 7).1,
   (abstractTrack_parseHeader_seeks_to_startOffset (fun q => (none, q + 16))
      (fun q => (none, q + 16)) ⟨5, false, 0⟩ 7).2 rfl⟩

/-- C9: after `AbstractTrack::parseHeader`, the `m_headerValid` flag is
`true` exactly when `internalParseHeader` returned without an exception;
since the flag is cleared before parsing, a failing call leaves the track
marked invalid even when an earlier parse had succeeded (the initial flag
value, universally quantified here, is irrelevant). -/
theorem abstractTrack_headerValid_iff_no_error
    (f : ℕ → Option TrackError × ℕ) (t : AbstractTrack) :
    ((AbstractTrack.parseHeader f t).2.m_headerValid = true ↔
      (AbstractTrack.parseHeader f t).1 = none) := by
  cases h : (f t.m_startOffset).1 <;>
    simp [AbstractTrack.parseHeader, h]

end Media
